import Mathlib

/-!
Shallow embedding of the google-ads-mcp-service repository
(src/index.js and the HTTP-transport variant src/unnamed/part_001),
covering the credential lifecycle manager (AutomatedTokenManager),
the tool handlers (testConnection, getCampaigns, getCampaignMetrics),
the stream-transport dispatch (setupToolHandlers) and the HTTP /mcp
endpoint (handleMCPEndpoint / handleMCPMessage).

JavaScript JSON values are modelled by the inductive `Json`; absent
object keys and JS `undefined` are modelled by `Option`; thrown JS
exceptions are modelled by `Except String` carrying the error message.
`JSON.stringify` of a payload followed by `JSON.parse` on the client
side is the identity on the payload, so the `text` field of a tool
envelope is modelled directly as the payload `Json` value.
-/

namespace GoogleAdsMcp

/-- JSON values (model of JavaScript objects flowing through the service). -/
inductive Json where
  | null : Json
  | bool : Bool → Json
  | num : Int → Json
  | str : String → Json
  | arr : List Json → Json
  | obj : List (String × Json) → Json

/-- Property lookup `j[k]` on a JSON value: on an object, the value of the
first binding of key `k`; `none` models JS `undefined` (missing key, or a
lookup on a non-object). -/
def jsGet (j : Json) (k : String) : Option Json :=
  match j with
  | .obj fields => (fields.find? (fun p => p.1 = k)).map (fun p => p.2)
  | _ => none

/-- Extract a JS string; `none` when the value is absent or not a string. -/
def jsAsString : Option Json → Option String
  | some (.str s) => some s
  | _ => none

/-- JS truthiness of an optional string (`!x` in the source): `null`,
`undefined` and the empty string are falsy. -/
def jsTruthyStr : Option String → Bool
  | none => false
  | some s => !s.isEmpty

/-- The OAuth token triple held by AutomatedTokenManager (`this.tokens`):
fields `refresh_token`, `access_token`, `expiry_date` of tokens.json /
the environment; `none` models an absent or null field. -/
structure Tokens where
  refresh_token : Option String
  access_token : Option String
  expiry_date : Option Int
deriving DecidableEq

/-- Embeds `isTokenExpiringSoon()` (src/index.js lines 107-111): absent
`expiry_date` is treated as expiring; otherwise expiring iff
`expiry_date - Date.now() < 5 * 60 * 1000`. `now` is `Date.now()` in
epoch milliseconds. -/
def isTokenExpiringSoon (tokens : Tokens) (now : Int) : Bool :=
  match tokens.expiry_date with
  | none => true
  | some e => decide (e - now < 5 * 60 * 1000)

/-- Embeds the merge step of `saveTokens(tokens)` (src/index.js line 114):
`this.tokens = { ...this.tokens, ...tokens }` — every field present in
the refresh response overrides the stored one, and every absent field
keeps the stored value. -/
def mergeTokens (old new_ : Tokens) : Tokens :=
  { refresh_token := (new_.refresh_token).orElse (fun _ => old.refresh_token)
    access_token := (new_.access_token).orElse (fun _ => old.access_token)
    expiry_date := (new_.expiry_date).orElse (fun _ => old.expiry_date) }

/-- Collaborator outcomes and the clock, as seen by one request:
the outcome of `tokenManager.initializeTokens()`, the outcome of
`oauth2Client.refreshAccessToken()` (the refresh exchange, returning the
`credentials` object), the `customer.query` collaborator (query string in,
row list or failure out), and `Date.now()`. -/
structure Env where
  initTokens : Except String Tokens
  refresh : Except String Tokens
  query : String → Except String (List Json)
  now : Int

/-- Result of one `ensureValidTokens()` call: the stored tokens afterwards,
how many refresh exchanges were performed, and how many durable-store
writes (`saveTokens` file writes) happened. -/
structure EnsureResult where
  tokens : Tokens
  refreshCalls : Nat
  storeWrites : Nat
deriving DecidableEq

/-- Embeds `ensureValidTokens()` (src/index.js lines 92-105) as a function
of the stored `this.tokens` (`none` when still null), the clock and the
refresh collaborator.  If the access token is falsy or expiring soon the
refresh exchange runs once, the response is merged over the stored tokens
by `saveTokens` and persisted; otherwise nothing happens.  Any failure in
the try block (a null `this.tokens`, or a rejected refresh) is caught and
rethrown as the fixed authentication-failure message. -/
def ensureValidTokens (env : Env) (stored : Option Tokens) :
    Except String EnsureResult :=
  match stored with
  | none => .error "Authentication failed - may need to re-authenticate"
  | some t =>
    if !jsTruthyStr t.access_token || isTokenExpiringSoon t env.now then
      match env.refresh with
      | .ok credentials =>
          .ok { tokens := mergeTokens t credentials
                refreshCalls := 1
                storeWrites := 1 }
      | .error _ => .error "Authentication failed - may need to re-authenticate"
    else
      .ok { tokens := t, refreshCalls := 0, storeWrites := 0 }

/-- Embeds `getValidAccessToken()` (src/index.js lines 134-137): run
`ensureValidTokens()` and return the stored access token. -/
def getValidAccessToken (env : Env) (stored : Option Tokens) :
    Except String (Option String) :=
  match ensureValidTokens env stored with
  | .ok r => .ok r.tokens.access_token
  | .error e => .error e

/-- Mutable server fields of GoogleAdsMCPServer relevant to dispatch:
whether `this.customer` is set (non-null) and the token manager's stored
`this.tokens`. -/
structure ServerState where
  customer : Bool
  tokens : Option Tokens
deriving DecidableEq

/-- Fields set by the constructor: `this.customer = null`,
`this.tokenManager.tokens = null`. -/
def initialServerState : ServerState :=
  { customer := false, tokens := none }

/-- Embeds `initializeGoogleAds()` (src/index.js lines 160-182): runs
`tokenManager.initializeTokens()` (whose overall outcome, including its
internal refresh, is the collaborator `env.initTokens`), then constructs
the API client and `this.customer`.  On failure the error is rethrown and
`this.customer` stays null. -/
def initializeGoogleAds (env : Env) : Except String ServerState :=
  match env.initTokens with
  | .ok t => .ok { customer := true, tokens := some t }
  | .error e => .error e

/-- The lazy-initialization guard `if (!this.customer) await
this.initializeGoogleAds()` shared by all three tool handlers; the second
component counts how many initialization attempts were made (0 or 1). -/
def lazyInit (env : Env) (st : ServerState) : Except String ServerState × Nat :=
  if st.customer then (.ok st, 0) else (initializeGoogleAds env, 1)

/-- One element of a tool envelope's `content` array:
`{ type: "text", text: <JSON.stringify(payload)> }`.  The `text` field
holds the payload JSON value itself (stringify followed by the client's
parse is the identity). -/
structure TextContent where
  type : String
  text : Json

/-- A tool result envelope `{ content: [...] }`. -/
structure ToolEnvelope where
  content : List TextContent

/-- Wraps a payload as the code does:
`{ content: [ { type: "text", text: JSON.stringify(payload, null, 2) } ] }`. -/
def textEnvelope (payload : Json) : ToolEnvelope :=
  { content := [{ type := "text", text := payload }] }

/-- The identity query issued by `testConnection()` (whitespace
normalized). -/
def testQuery : String :=
  "SELECT customer.id, customer.descriptive_name FROM customer LIMIT 1"

/-- The listing query issued by `getCampaigns()` (whitespace
normalized); it is a constant, independent of the handler arguments. -/
def campaignsQuery : String :=
  "SELECT campaign.id, campaign.name, campaign.status, campaign.advertising_channel_type, campaign.start_date, campaign.end_date FROM campaign ORDER BY campaign.name"

/-- An ASCII single-quote character, used by the metrics query template. -/
def sq : String := "\x27"

/-- The metrics query built by `getCampaignMetrics()` by template-literal
interpolation of the three caller-supplied strings (whitespace
normalized): `... WHERE campaign.id = CID AND segments.date BETWEEN
quote-S-quote AND quote-E-quote ORDER BY segments.date DESC`. -/
def metricsQuery (campaignId startDate endDate : String) : String :=
  "SELECT campaign.id, campaign.name, metrics.impressions, metrics.clicks, metrics.ctr, metrics.cost_micros, metrics.conversions, metrics.conversion_rate, segments.date FROM campaign WHERE campaign.id = "
    ++ campaignId ++ " AND segments.date BETWEEN " ++ sq ++ startDate ++ sq
    ++ " AND " ++ sq ++ endDate ++ sq ++ " ORDER BY segments.date DESC"

/-- The success payload of `testConnection()`:
`{ status, message, customer_info: result[0] }`.  When the row list is
empty `result[0]` is `undefined` and `JSON.stringify` drops the key. -/
def testConnectionSuccessPayload (rows : List Json) : Json :=
  .obj ([("status", .str "success"),
         ("message", .str "Google Ads API connection successful")]
        ++ (match rows.head? with
            | some r => [("customer_info", r)]
            | none => []))

/-- The catch-branch payload of `testConnection()`:
`{ status: "error", message, error: error.message }`. -/
def testConnectionFailurePayload (errMsg : String) : Json :=
  .obj [("status", .str "error"),
        ("message", .str "Failed to connect to Google Ads API"),
        ("error", .str errMsg)]

/-- The success payload of `getCampaigns()`:
`{ status: "success", count: campaigns.length, campaigns }`. -/
def campaignsPayload (campaigns : List Json) : Json :=
  .obj [("status", .str "success"),
        ("count", .num campaigns.length),
        ("campaigns", .arr campaigns)]

/-- The success payload of `getCampaignMetrics()`:
`{ status: "success", campaign_id, date_range: { start, end }, metrics }`. -/
def campaignMetricsPayload (campaignId startDate endDate : String)
    (metrics : List Json) : Json :=
  .obj [("status", .str "success"),
        ("campaign_id", .str campaignId),
        ("date_range", .obj [("start", .str startDate), ("end", .str endDate)]),
        ("metrics", .arr metrics)]

/-- The observable effect of one tool-handler invocation: the returned
envelope or the thrown error message, the server state afterwards, and
the side-effect counters (initialization attempts, refresh exchanges,
queries issued, durable-store writes). -/
structure ToolStep where
  outcome : Except String ToolEnvelope
  state : ServerState
  initAttempts : Nat
  refreshCalls : Nat
  queries : List String
  storeWrites : Nat

/-- Embeds `testConnection()` (src/index.js lines 265-303): lazy
initialization, the identity query, and a catch-all that converts every
failure (including initialization failure) into a success-shaped envelope
whose payload has `status: "error"`.  This handler never throws. -/
def testConnection (env : Env) (st : ServerState) : ToolStep :=
  match lazyInit env st with
  | (.error e, n) =>
      { outcome := .ok (textEnvelope (testConnectionFailurePayload e))
        state := st, initAttempts := n, refreshCalls := 0
        queries := [], storeWrites := 0 }
  | (.ok st1, n) =>
      match env.query testQuery with
      | .ok rows =>
          { outcome := .ok (textEnvelope (testConnectionSuccessPayload rows))
            state := st1, initAttempts := n, refreshCalls := 0
            queries := [testQuery], storeWrites := 0 }
      | .error e =>
          { outcome := .ok (textEnvelope (testConnectionFailurePayload e))
            state := st1, initAttempts := n, refreshCalls := 0
            queries := [testQuery], storeWrites := 0 }

/-- Embeds `getCampaigns(customerId = null)` (src/index.js lines 305-342):
lazy initialization, `ensureValidTokens()`, the constant listing query,
and `catch (error) { throw error }` — every failure is rethrown to the
dispatcher.  The `customerId` parameter is declared but never read. -/
def getCampaigns (env : Env) (st : ServerState) (customerId : Option Json) :
    ToolStep :=
  match lazyInit env st with
  | (.error e, n) =>
      { outcome := .error e, state := st, initAttempts := n
        refreshCalls := 0, queries := [], storeWrites := 0 }
  | (.ok st1, n) =>
      match ensureValidTokens env st1.tokens with
      | .error e =>
          { outcome := .error e, state := st1, initAttempts := n
            refreshCalls := 0, queries := [], storeWrites := 0 }
      | .ok r =>
          let st2 : ServerState := { st1 with tokens := some r.tokens }
          match env.query campaignsQuery with
          | .ok campaigns =>
              { outcome := .ok (textEnvelope (campaignsPayload campaigns))
                state := st2, initAttempts := n, refreshCalls := r.refreshCalls
                queries := [campaignsQuery], storeWrites := r.storeWrites }
          | .error e =>
              { outcome := .error e, state := st2, initAttempts := n
                refreshCalls := r.refreshCalls, queries := [campaignsQuery]
                storeWrites := r.storeWrites }

/-- Embeds `getCampaignMetrics(campaignId, startDate, endDate)`
(src/index.js lines 344-387): lazy initialization, `ensureValidTokens()`,
the interpolated metrics query, and `catch (error) { throw error }` —
every failure is rethrown to the dispatcher. -/
def getCampaignMetrics (env : Env) (st : ServerState)
    (campaignId startDate endDate : String) : ToolStep :=
  match lazyInit env st with
  | (.error e, n) =>
      { outcome := .error e, state := st, initAttempts := n
        refreshCalls := 0, queries := [], storeWrites := 0 }
  | (.ok st1, n) =>
      match ensureValidTokens env st1.tokens with
      | .error e =>
          { outcome := .error e, state := st1, initAttempts := n
            refreshCalls := 0, queries := [], storeWrites := 0 }
      | .ok r =>
          let st2 : ServerState := { st1 with tokens := some r.tokens }
          match env.query (metricsQuery campaignId startDate endDate) with
          | .ok metrics =>
              { outcome := .ok (textEnvelope
                  (campaignMetricsPayload campaignId startDate endDate metrics))
                state := st2, initAttempts := n, refreshCalls := r.refreshCalls
                queries := [metricsQuery campaignId startDate endDate]
                storeWrites := r.storeWrites }
          | .error e =>
              { outcome := .error e, state := st2, initAttempts := n
                refreshCalls := r.refreshCalls
                queries := [metricsQuery campaignId startDate endDate]
                storeWrites := r.storeWrites }

/-- JSON-RPC / MCP error codes used by the source (`ErrorCode.MethodNotFound`
and `ErrorCode.InternalError` of the SDK). -/
def methodNotFoundCode : Int := -32601

/-- The SDK `ErrorCode.InternalError`, also the literal `-32603` used by
the HTTP transport. -/
def internalErrorCode : Int := -32603

/-- An `McpError` value as thrown/returned by the stream-transport
dispatcher. -/
structure McpError where
  code : Int
  message : String
deriving DecidableEq

/-- The JS `.message` of an `McpError`: the SDK constructor sets the
message to the concatenation of the text "MCP error ", the code, ": ",
and the wrapped message. -/
def McpError.jsMessage (e : McpError) : String :=
  "MCP error " ++ toString e.code ++ ": " ++ e.message

/-- A thrown JS exception inside the stream-transport call handler: either
an `McpError` (the default case) or an ordinary `Error` (rethrown
downstream failures), each with its `.message`. -/
inductive Thrown where
  | mcp : McpError → Thrown
  | plain : String → Thrown

/-- The `.message` property read by the catch clause. -/
def Thrown.message : Thrown → String
  | .mcp e => e.jsMessage
  | .plain m => m

/-- Coercion of a JS value to a template-literal string, for the primitive
values that can appear here; composite values (arrays, objects) never
reach a template in any verified scenario and are mapped to the object
placeholder. -/
def jsTemplateString : Option Json → String
  | none => "undefined"
  | some .null => "null"
  | some (.bool b) => if b then "true" else "false"
  | some (.num n) => toString n
  | some (.str s) => s
  | some (.arr _) => "[object Object]"
  | some (.obj _) => "[object Object]"

/-- A tool descriptor of the static catalog
`{ name, description, inputSchema }`. -/
structure ToolDescriptor where
  name : String
  description : String
  inputSchema : Json

/-- The `get_campaigns` descriptor (identical text in src/index.js lines
188-200 and src/unnamed/part_001 lines 533-545). -/
def getCampaignsTool : ToolDescriptor :=
  { name := "get_campaigns"
    description := "Get all campaigns from Google Ads account"
    inputSchema := .obj
      [("type", .str "object"),
       ("properties", .obj
         [("customer_id", .obj
            [("type", .str "string"),
             ("description", .str "Google Ads customer ID (optional, uses default if not provided)")])])] }

/-- The `get_campaign_metrics` descriptor (src/index.js lines 201-222). -/
def getCampaignMetricsTool : ToolDescriptor :=
  { name := "get_campaign_metrics"
    description := "Get performance metrics for campaigns"
    inputSchema := .obj
      [("type", .str "object"),
       ("properties", .obj
         [("campaign_id", .obj
            [("type", .str "string"),
             ("description", .str "Campaign ID to get metrics for")]),
          ("start_date", .obj
            [("type", .str "string"),
             ("description", .str "Start date (YYYY-MM-DD format)")]),
          ("end_date", .obj
            [("type", .str "string"),
             ("description", .str "End date (YYYY-MM-DD format)")])]),
       ("required", .arr [.str "campaign_id", .str "start_date", .str "end_date"])] }

/-- The `test_connection` descriptor (identical text in src/index.js lines
223-230 and src/unnamed/part_001 lines 546-553). -/
def testConnectionTool : ToolDescriptor :=
  { name := "test_connection"
    description := "Test the Google Ads API connection"
    inputSchema := .obj [("type", .str "object"), ("properties", .obj [])] }

/-- The catalog returned by the stream transport's ListTools handler
(src/index.js lines 185-233): three tools. -/
def streamListTools : List ToolDescriptor :=
  [getCampaignsTool, getCampaignMetricsTool, testConnectionTool]

/-- The catalog returned by the HTTP transport's `tools/list` branch
(src/unnamed/part_001 lines 527-557): only two tools —
`get_campaign_metrics` is absent. -/
def httpListTools : List ToolDescriptor :=
  [getCampaignsTool, testConnectionTool]

/-- Embeds the stream-transport CallTool handler (src/index.js lines
235-262).  The inner switch dispatches on `request.params.name`; the
`get_campaign_metrics` case reads `args.campaign_id` etc. without optional
chaining, so an absent `arguments` object throws a TypeError there; the
default case throws `McpError(MethodNotFound, ...)`.  The surrounding
catch wraps EVERY thrown error — including the just-thrown MethodNotFound
`McpError` — into a fresh `McpError(InternalError, "Error executing " +
name + ": " + error.message)`.  An `.error` result models the `McpError`
that the handler throws to the SDK, which the SDK serializes as the
protocol error envelope of the response. -/
def streamCallTool (env : Env) (st : ServerState) (name : String)
    (args : Option Json) : Except McpError ToolEnvelope :=
  let inner : Except Thrown ToolEnvelope :=
    if name = "test_connection" then
      match (testConnection env st).outcome with
      | .ok e => .ok e
      | .error m => .error (.plain m)
    else if name = "get_campaigns" then
      match (getCampaigns env st (args.bind (fun a => jsGet a "customer_id"))).outcome with
      | .ok e => .ok e
      | .error m => .error (.plain m)
    else if name = "get_campaign_metrics" then
      match args with
      | none => .error (.plain "Cannot read properties of undefined (reading \x27campaign_id\x27)")
      | some a =>
          match (getCampaignMetrics env st
                  (jsTemplateString (jsGet a "campaign_id"))
                  (jsTemplateString (jsGet a "start_date"))
                  (jsTemplateString (jsGet a "end_date"))).outcome with
          | .ok e => .ok e
          | .error m => .error (.plain m)
    else
      .error (.mcp { code := methodNotFoundCode, message := "Unknown tool: " ++ name })
  match inner with
  | .ok e => .ok e
  | .error t =>
      .error { code := internalErrorCode
               message := "Error executing " ++ name ++ ": " ++ t.message }

/-- A JSON-RPC error object `{ code, message, data }` as produced by the
HTTP transport. -/
structure JsonRpcError where
  code : Int
  message : String
  data : String
deriving DecidableEq

/-- The `result` member of a successful HTTP JSON-RPC response: the
`initialize` payload (carrying its `protocolVersion`; `capabilities` and
`serverInfo` are fixed constants of the source), a `tools/list` catalog,
or a `tools/call` tool envelope. -/
inductive RpcResult where
  | initialized : String → RpcResult
  | toolList : List ToolDescriptor → RpcResult
  | toolResult : ToolEnvelope → RpcResult

/-- A JSON-RPC response object as built by `handleMCPMessage` (the
`jsonrpc: "2.0"` member is a constant and is left implicit).  The
`sessionId` field is the extra member attached by the `initialize` branch
and later moved into the `Mcp-Session-Id` response header by the POST
handler. -/
structure RpcResponse where
  id : Option Json
  result : Option RpcResult
  error : Option JsonRpcError
  sessionId : Option String

/-- The catch clause of `handleMCPMessage` (src/unnamed/part_001 lines
582-592): every thrown error inside the try block becomes
`{ error: { code: -32603, message: "Internal error", data: error.message } }`. -/
def rpcCaught (id : Option Json) (msg : String) : RpcResponse :=
  { id := id, result := none
    error := some { code := -32603, message := "Internal error", data := msg }
    sessionId := none }

/-- The try block of `handleMCPMessage` (src/unnamed/part_001 lines
504-593) for a non-null message, with the catch applied: dispatches on
`method`; the `tools/call` switch knows only `test_connection` and
`get_campaigns` — any other name (including `get_campaign_metrics`)
throws `Unknown tool` into the catch.  Unknown methods throw
`Unknown method` into the catch.  This function is total: every failure
becomes an `rpcCaught` error response. -/
def handleMCPMessageBody (message : Json) (freshSessionId : String)
    (env : Env) (st : ServerState) : RpcResponse × ServerState :=
  let method := jsGet message "method"
  let params := jsGet message "params"
  let id := jsGet message "id"
  if jsAsString method = some "initialize" then
    ({ id := id, result := some (.initialized "2025-03-26"), error := none
       sessionId := some freshSessionId }, st)
  else if jsAsString method = some "tools/list" then
    ({ id := id, result := some (.toolList httpListTools), error := none
       sessionId := none }, st)
  else if jsAsString method = some "tools/call" then
    match params with
    | none =>
        (rpcCaught id "Cannot destructure property name of params as it is undefined", st)
    | some .null =>
        (rpcCaught id "Cannot destructure property name of params as it is null", st)
    | some p =>
      let nameJ := jsGet p "name"
      let args := jsGet p "arguments"
      if jsAsString nameJ = some "test_connection" then
        let r := testConnection env st
        match r.outcome with
        | .ok e =>
            ({ id := id, result := some (.toolResult e), error := none
               sessionId := none }, r.state)
        | .error m => (rpcCaught id m, r.state)
      else if jsAsString nameJ = some "get_campaigns" then
        let r := getCampaigns env st (args.bind (fun a => jsGet a "customer_id"))
        match r.outcome with
        | .ok e =>
            ({ id := id, result := some (.toolResult e), error := none
               sessionId := none }, r.state)
        | .error m => (rpcCaught id m, r.state)
      else
        (rpcCaught id ("Unknown tool: " ++ jsTemplateString nameJ), st)
  else
    (rpcCaught id ("Unknown method: " ++ jsTemplateString method), st)

/-- Embeds `handleMCPMessage(message, sessionId)` (src/unnamed/part_001
lines 504-593).  The destructuring `const { method, params, id } =
message` happens BEFORE the try block, so a null message throws out of
the function (an `.error` here), to be caught by the POST handler's
catch; every other message is handled totally by the try/catch body. -/
def handleMCPMessage (message : Json) (freshSessionId : String)
    (env : Env) (st : ServerState) : Except String (RpcResponse × ServerState) :=
  match message with
  | .null => .error "Cannot destructure property method of message as it is null"
  | m => .ok (handleMCPMessageBody m freshSessionId env st)

/-- The body of an HTTP response from the `/mcp` endpoint: a serialized
JSON-RPC response object, the server-sent-events ping stream, or an empty
body. -/
inductive McpHttpBody where
  | rpc : RpcResponse → McpHttpBody
  | sse : McpHttpBody
  | empty : McpHttpBody

/-- An HTTP response: status code, optional `Mcp-Session-Id` header, and
body. -/
structure HttpResponse where
  status : Nat
  mcpSessionHeader : Option String
  body : McpHttpBody

/-- The 500-response body of the POST handler's catch clause
(src/unnamed/part_001 lines 470-482): a JSON-RPC error object with code
-32603 and the thrown message as `data`, with no `id`. -/
def http500Body (msg : String) : RpcResponse :=
  { id := none, result := none
    error := some { code := -32603, message := "Internal error", data := msg }
    sessionId := none }

/-- Embeds the POST branch of `handleMCPEndpoint` (src/unnamed/part_001
lines 454-483).  `body` is the outcome of `JSON.parse` on the collected
request body (`.error` with the parse error message when it throws).  On
a parsed body the message is dispatched; if the response carries a truthy
`sessionId` it is moved into the `Mcp-Session-Id` header and deleted from
the JSON body; the response is written with status 200.  Any throw
(parse failure, or the null-destructure throw of `handleMCPMessage`)
reaches the catch and produces status 500. -/
def handleMCPPost (body : Except String Json) (freshSessionId : String)
    (env : Env) (st : ServerState) : HttpResponse × ServerState :=
  match body with
  | .error parseMsg =>
      ({ status := 500, mcpSessionHeader := none
         body := .rpc (http500Body parseMsg) }, st)
  | .ok message =>
    match handleMCPMessage message freshSessionId env st with
    | .error m =>
        ({ status := 500, mcpSessionHeader := none
           body := .rpc (http500Body m) }, st)
    | .ok (resp, st1) =>
      if jsTruthyStr resp.sessionId then
        ({ status := 200, mcpSessionHeader := resp.sessionId
           body := .rpc { resp with sessionId := none } }, st1)
      else
        ({ status := 200, mcpSessionHeader := none, body := .rpc resp }, st1)

/-- HTTP request methods reaching the `/mcp` endpoint (OPTIONS is
short-circuited earlier in `startHttpServer`). -/
inductive HttpMethod where
  | get : HttpMethod
  | post : HttpMethod
  | delete : HttpMethod
  | other : HttpMethod

/-- Embeds `handleMCPEndpoint(req, res)` (src/unnamed/part_001 lines
451-502).  `sessionId` is the `mcp-session-id` request header (`none`
when absent).  POST dispatches the parsed body; GET opens the
event-stream ping; `DELETE && sessionId` answers 204 with an empty body;
everything else (including DELETE without a session header) answers 405. -/
def handleMCPEndpoint (method : HttpMethod) (sessionId : Option String)
    (body : Except String Json) (freshSessionId : String)
    (env : Env) (st : ServerState) : HttpResponse × ServerState :=
  match method with
  | .post => handleMCPPost body freshSessionId env st
  | .get => ({ status := 200, mcpSessionHeader := none, body := .sse }, st)
  | .delete =>
      if jsTruthyStr sessionId then
        ({ status := 204, mcpSessionHeader := none, body := .empty }, st)
      else
        ({ status := 405, mcpSessionHeader := none, body := .empty }, st)
  | .other => ({ status := 405, mcpSessionHeader := none, body := .empty }, st)

/-- The observable outcome of `run()` at process start. -/
structure StartupResult where
  state : ServerState
  httpServerStarted : Bool
  startupFailureLogged : Bool
deriving DecidableEq

/-- Embeds `run()` (src/index.js lines 389-401 and src/unnamed/part_001
lines 595-616): `initializeGoogleAds()` is attempted; on failure the
error is caught and logged and the server is started anyway with
`this.customer` still null, so the first tool call re-attempts
initialization through its lazy guard. -/
def run (env : Env) : StartupResult :=
  match initializeGoogleAds env with
  | .ok st =>
      { state := st, httpServerStarted := true, startupFailureLogged := false }
  | .error _ =>
      { state := initialServerState, httpServerStarted := true
        startupFailureLogged := true }

/-- A `tools/call` request message `{ method, params: { name, arguments? },
id }` as POSTed to the HTTP endpoint. -/
def toolCallMessage (name : String) (args : Option Json) (id : Json) : Json :=
  .obj [("method", .str "tools/call"),
        ("params", .obj ([("name", .str name)]
          ++ (match args with | some a => [("arguments", a)] | none => []))),
        ("id", id)]

/-- A `tools/list` request message. -/
def toolsListMessage (id : Json) : Json :=
  .obj [("method", .str "tools/list"), ("id", id)]

/-- A token triple with a valid, far-future access token, used as a
concrete test credential. -/
def sampleTokens : Tokens :=
  { refresh_token := some "r1", access_token := some "a1"
    expiry_date := some 2000000000000 }

/-- A fully initialized server state holding `sampleTokens`. -/
def readyState : ServerState := { customer := true, tokens := some sampleTokens }

/-- A collaborator environment whose query collaborator always fails with
the message "boom" (the forced downstream failure of the error-handling
scenarios), with healthy credentials and clock 0. -/
def failingEnv : Env :=
  { initTokens := .ok sampleTokens, refresh := .ok sampleTokens
    query := fun _ => .error "boom", now := 0 }

/-- C5: for every credential with a present (truthy) access token and an
expiry timestamp more than 5 minutes after the current time,
`ensureValidTokens` leaves the credential untouched, performs no refresh
exchange and no durable-store write, and `getValidAccessToken` returns
the same access token. -/
theorem c5_fresh_token_no_refresh (env : Env) (t : Tokens) (a : String) (ex : Int)
    (ha : t.access_token = some a)
    (htruthy : jsTruthyStr t.access_token = true)
    (hex : t.expiry_date = some ex)
    (hfuture : 5 * 60 * 1000 < ex - env.now) :
    ensureValidTokens env (some t)
      = .ok { tokens := t, refreshCalls := 0, storeWrites := 0 } ∧
    getValidAccessToken env (some t) = .ok (some a) := by
  have hsoon : isTokenExpiringSoon t env.now = false := by
    simp [isTokenExpiringSoon, hex]
    omega
  have h1 : ensureValidTokens env (some t)
      = .ok { tokens := t, refreshCalls := 0, storeWrites := 0 } := by
    simp [ensureValidTokens, htruthy, hsoon]
  refine ⟨h1, ?_⟩
  simp [getValidAccessToken, h1, ha]

/-- Closed witness for `c5_fresh_token_no_refresh` on `sampleTokens` at
clock 0. -/
theorem c5_fresh_token_no_refresh_witness :
    ensureValidTokens failingEnv (some sampleTokens)
      = .ok { tokens := sampleTokens, refreshCalls := 0, storeWrites := 0 } ∧
    getValidAccessToken failingEnv (some sampleTokens) = .ok (some "a1") :=
  c5_fresh_token_no_refresh failingEnv sampleTokens "a1" 2000000000000
    rfl rfl rfl (by decide)

/-- C4: for every stored credential with a present refresh token that is
stale (absent expiry or expiring within 5 minutes — `isTokenExpiringSoon`),
`ensureValidTokens` performs exactly one refresh exchange and one durable
write, and when the exchange response omits a refresh token the merged
credential keeps the prior refresh token. -/
theorem c4_refresh_preserves_refresh_token (env : Env) (t creds : Tokens) (r : String)
    (hr : t.refresh_token = some r)
    (homit : creds.refresh_token = none)
    (hresp : env.refresh = .ok creds)
    (hsoon : isTokenExpiringSoon t env.now = true) :
    ensureValidTokens env (some t)
      = .ok { tokens := mergeTokens t creds, refreshCalls := 1, storeWrites := 1 } ∧
    (mergeTokens t creds).refresh_token = some r := by
  constructor
  · simp [ensureValidTokens, hsoon, hresp]
  · simp [mergeTokens, homit, hr]

/-- Closed witness for `c4_refresh_preserves_refresh_token`: a credential
with refresh token "r1" and no expiry, refreshed by a response that
carries only a new access token. -/
theorem c4_refresh_preserves_refresh_token_witness :
    ensureValidTokens
        { initTokens := .ok sampleTokens
          refresh := .ok { refresh_token := none, access_token := some "a2"
                           expiry_date := some 600000 }
          query := fun _ => .error "boom", now := 0 }
        (some { refresh_token := some "r1", access_token := none
                expiry_date := none })
      = .ok { tokens := mergeTokens
                { refresh_token := some "r1", access_token := none
                  expiry_date := none }
                { refresh_token := none, access_token := some "a2"
                  expiry_date := some 600000 }
              refreshCalls := 1, storeWrites := 1 } ∧
    (mergeTokens
        { refresh_token := some "r1", access_token := none, expiry_date := none }
        { refresh_token := none, access_token := some "a2"
          expiry_date := some 600000 }).refresh_token = some "r1" :=
  c4_refresh_preserves_refresh_token _ _ _ "r1" rfl rfl rfl rfl

/-- C9: `getCampaigns` ignores its `customer_id` argument entirely — two
invocations differing only in that argument (including its absence)
produce identical outcomes, states, query strings and side effects, and
the same holds through the stream-transport dispatcher. -/
theorem c9_customer_id_no_influence (env : Env) (st : ServerState)
    (cid1 cid2 : Option Json) (args1 args2 : Option Json) :
    getCampaigns env st cid1 = getCampaigns env st cid2 ∧
    streamCallTool env st "get_campaigns" args1
      = streamCallTool env st "get_campaigns" args2 :=
  ⟨rfl, rfl⟩

/-- C1 counterexample: the catalog advertised by the HTTP transport's
`tools/list` branch names only two tools, so its name list is neither the
claimed three-element catalog nor equal to the stream transport's
catalog. -/
theorem c1_counterexample :
    httpListTools.map ToolDescriptor.name
        ≠ ["get_campaigns", "get_campaign_metrics", "test_connection"] ∧
    httpListTools.map ToolDescriptor.name
        ≠ streamListTools.map ToolDescriptor.name := by
  constructor <;> decide

/-- C1 (amended): the stream transport's ListTools handler advertises
exactly get_campaigns, get_campaign_metrics, test_connection; the HTTP
`/mcp` `tools/list` branch advertises exactly get_campaigns,
test_connection (omitting get_campaign_metrics), and its two descriptors
are the same as the stream transport's; the listing is a constant
(idempotent, independent of environment, state and session). -/
theorem c1_catalogs (fresh : String) (env : Env) (st : ServerState) (id : Json) :
    streamListTools.map ToolDescriptor.name
        = ["get_campaigns", "get_campaign_metrics", "test_connection"] ∧
    httpListTools.map ToolDescriptor.name = ["get_campaigns", "test_connection"] ∧
    httpListTools = [getCampaignsTool, testConnectionTool] ∧
    streamListTools = [getCampaignsTool, getCampaignMetricsTool, testConnectionTool] ∧
    handleMCPMessage (toolsListMessage id) fresh env st
      = .ok ({ id := some id, result := some (.toolList httpListTools)
               error := none, sessionId := none }, st) :=
  ⟨rfl, rfl, rfl, rfl, rfl⟩

/-- The arguments object of the C2 scenario. -/
def c2Arguments : Json :=
  .obj [("campaign_id", .str "123"),
        ("start_date", .str "2024-01-01"),
        ("end_date", .str "2024-01-31")]

/-- The POSTed body of the C2 scenario. -/
def c2Message : Json := toolCallMessage "get_campaign_metrics" (some c2Arguments) (.num 1)

/-- A stub query collaborator returning two rows, with healthy
credentials. -/
def twoRowEnv : Env :=
  { initTokens := .ok sampleTokens, refresh := .ok sampleTokens
    query := fun _ => .ok
      [.obj [("campaign", .obj [("id", .num 123)]),
             ("segments", .obj [("date", .str "2024-01-31")])],
       .obj [("campaign", .obj [("id", .num 123)]),
             ("segments", .obj [("date", .str "2024-01-30")])]]
    now := 0 }

/-- C2 counterexample: POSTing the scenario body to `/mcp` against the
two-row stub yields a JSON-RPC error response (`Unknown tool`), with no
`result` member at all — the HTTP `tools/call` switch has no
`get_campaign_metrics` case — so `result.content[0].text` cannot parse to
a success payload. -/
theorem c2_counterexample :
    (handleMCPPost (.ok c2Message) "s1" twoRowEnv readyState).1
      = { status := 200, mcpSessionHeader := none
          body := .rpc (rpcCaught (some (.num 1))
                          "Unknown tool: get_campaign_metrics") } ∧
    (rpcCaught (some (.num 1)) "Unknown tool: get_campaign_metrics").result = none :=
  ⟨rfl, rfl⟩

/-- C2 (amended): for every environment and server state, POSTing the
scenario body to `/mcp` yields a 200 response whose JSON-RPC body is the
error object `{ code: -32603, message: "Internal error", data: "Unknown
tool: get_campaign_metrics" }`: the HTTP transport does not dispatch
`get_campaign_metrics` (only the stream transport does). -/
theorem c2_http_metrics_unknown_tool (fresh : String) (env : Env) (st : ServerState) :
    (handleMCPPost (.ok c2Message) fresh env st).1
      = { status := 200, mcpSessionHeader := none
          body := .rpc (rpcCaught (some (.num 1))
                          "Unknown tool: get_campaign_metrics") } :=
  rfl

/-- C8: a DELETE on `/mcp` with a (nonempty, hence truthy) session header
is answered 204 with an empty body; a DELETE without the header is
refused with the client-error status 405 and an empty body, for every
request body, environment and state. -/
theorem c8_delete_session_teardown (body : Except String Json) (fresh : String)
    (env : Env) (st : ServerState) (sid : String) (hne : sid ≠ "") :
    (handleMCPEndpoint .delete (some sid) body fresh env st).1
      = { status := 204, mcpSessionHeader := none, body := .empty } ∧
    (handleMCPEndpoint .delete none body fresh env st).1
      = { status := 405, mcpSessionHeader := none, body := .empty } ∧
    400 ≤ (handleMCPEndpoint .delete none body fresh env st).1.status := by
  have htruthy : jsTruthyStr (some sid) = true := by
    simp [jsTruthyStr]
    exact Bool.eq_false_iff.mpr (fun h => hne ((String.isEmpty_iff sid).mp h))
  refine ⟨?_, rfl, ?_⟩
  · simp [handleMCPEndpoint, htruthy]
  · simp [handleMCPEndpoint, jsTruthyStr]

/-- Closed witness for `c8_delete_session_teardown` with session id
"session_1". -/
theorem c8_delete_session_teardown_witness :
    (handleMCPEndpoint .delete (some "session_1") (.error "empty body") "s1"
        failingEnv readyState).1
      = { status := 204, mcpSessionHeader := none, body := .empty } ∧
    (handleMCPEndpoint .delete none (.error "empty body") "s1"
        failingEnv readyState).1
      = { status := 405, mcpSessionHeader := none, body := .empty } ∧
    400 ≤ (handleMCPEndpoint .delete none (.error "empty body") "s1"
        failingEnv readyState).1.status :=
  c8_delete_session_teardown (.error "empty body") "s1" failingEnv readyState
    "session_1" (by decide)

/-- C3: with an initialized server, healthy credentials and a query
collaborator forced to fail, `test_connection` RETURNS a success-shaped
envelope whose payload has status "error", while `get_campaigns` and
`get_campaign_metrics` THROW the failure upward; consequently the stream
dispatcher answers `test_connection` with the success envelope but
answers the other two tools with an InternalError `McpError`, and the
HTTP dispatcher answers `test_connection` with a `result` member but
`get_campaigns` with a JSON-RPC error object (code -32603) carrying the
downstream message. -/
theorem c3_error_asymmetry (env : Env) (st : ServerState) (t : Tokens) (m : String)
    (hq : ∀ q, env.query q = .error m)
    (hcust : st.customer = true)
    (htok : st.tokens = some t)
    (hacc : jsTruthyStr t.access_token = true)
    (hexp : isTokenExpiringSoon t env.now = false) :
    (testConnection env st).outcome
      = .ok (textEnvelope (testConnectionFailurePayload m)) ∧
    jsGet (testConnectionFailurePayload m) "status" = some (.str "error") ∧
    (∀ cid, (getCampaigns env st cid).outcome = .error m) ∧
    (∀ c s e, (getCampaignMetrics env st c s e).outcome = .error m) ∧
    (∀ args, streamCallTool env st "test_connection" args
        = .ok (textEnvelope (testConnectionFailurePayload m))) ∧
    (∀ args, streamCallTool env st "get_campaigns" args
        = .error { code := internalErrorCode
                   message := "Error executing get_campaigns: " ++ m }) ∧
    (∀ a, streamCallTool env st "get_campaign_metrics" (some a)
        = .error { code := internalErrorCode
                   message := "Error executing get_campaign_metrics: " ++ m }) ∧
    (∀ fresh id args,
      handleMCPMessage (toolCallMessage "test_connection" args id) fresh env st
        = .ok ({ id := some id
                 result := some (.toolResult
                   (textEnvelope (testConnectionFailurePayload m)))
                 error := none, sessionId := none }, st)) ∧
    (∀ fresh id args,
      handleMCPMessage (toolCallMessage "get_campaigns" args id) fresh env st
        = .ok (rpcCaught (some id) m, st)) := by
  have hlaz : lazyInit env st = (.ok st, 0) := by
    simp [lazyInit, hcust]
  have hens : ensureValidTokens env st.tokens
      = .ok { tokens := t, refreshCalls := 0, storeWrites := 0 } := by
    rw [htok]
    simp [ensureValidTokens, hacc, hexp]
  have hstEq : (ServerState.mk st.customer (some t)) = st := by
    rcases st with ⟨c, tk⟩
    simp only at htok
    rw [htok]
  have htc : testConnection env st
      = { outcome := .ok (textEnvelope (testConnectionFailurePayload m))
          state := st, initAttempts := 0, refreshCalls := 0
          queries := [testQuery], storeWrites := 0 } := by
    simp [testConnection, hlaz, hq]
  have hgc : ∀ cid, getCampaigns env st cid
      = { outcome := .error m, state := st, initAttempts := 0
          refreshCalls := 0, queries := [campaignsQuery], storeWrites := 0 } := by
    intro cid
    simp [getCampaigns, hlaz, hens, hq, hstEq]
  have hgm : ∀ c s e, getCampaignMetrics env st c s e
      = { outcome := .error m, state := st, initAttempts := 0
          refreshCalls := 0, queries := [metricsQuery c s e], storeWrites := 0 } := by
    intro c s e
    simp [getCampaignMetrics, hlaz, hens, hq, hstEq]
  refine ⟨by rw [htc], rfl, fun cid => by rw [hgc], fun c s e => by rw [hgm],
    fun args => ?_, fun args => ?_, fun a => ?_,
    fun fresh id args => ?_, fun fresh id args => ?_⟩
  · simp [streamCallTool, htc]
  · simp [streamCallTool, hgc, Thrown.message]
  · simp [streamCallTool, hgm, Thrown.message]
  · simp [handleMCPMessage, handleMCPMessageBody, toolCallMessage, jsGet,
      jsAsString, htc]
  · simp [handleMCPMessage, handleMCPMessageBody, toolCallMessage, jsGet,
      jsAsString, hgc, rpcCaught]

/-- Closed witness for `c3_error_asymmetry` on the always-failing query
collaborator `failingEnv`. -/
theorem c3_error_asymmetry_witness :
    (testConnection failingEnv readyState).outcome
      = .ok (textEnvelope (testConnectionFailurePayload "boom")) ∧
    (getCampaigns failingEnv readyState none).outcome = .error "boom" ∧
    (getCampaignMetrics failingEnv readyState "123" "2024-01-01" "2024-01-31").outcome
      = .error "boom" ∧
    streamCallTool failingEnv readyState "get_campaigns" none
      = .error { code := internalErrorCode
                 message := "Error executing get_campaigns: boom" } ∧
    handleMCPMessage (toolCallMessage "test_connection" none (.num 7)) "s1"
        failingEnv readyState
      = .ok ({ id := some (.num 7)
               result := some (.toolResult
                 (textEnvelope (testConnectionFailurePayload "boom")))
               error := none, sessionId := none }, readyState) := by
  have h := c3_error_asymmetry failingEnv readyState sampleTokens "boom"
    (fun q => rfl) rfl rfl (by decide) (by decide)
  exact ⟨h.1, h.2.2.1 none, h.2.2.2.1 "123" "2024-01-01" "2024-01-31",
    h.2.2.2.2.2.1 none, h.2.2.2.2.2.2.2.1 "s1" (.num 7) none⟩

/-- C6 counterexample: calling the unknown tool "nonexistent" yields an
error envelope whose code is InternalError (-32603), NOT the
MethodNotFound code (-32601): the stream dispatcher's catch re-wraps the
inner MethodNotFound `McpError` into InternalError, and the HTTP
dispatcher's catch uses -32603 for everything. -/
theorem c6_counterexample :
    streamCallTool failingEnv readyState "nonexistent" none
      = .error { code := internalErrorCode
                 message := "Error executing nonexistent: MCP error -32601: Unknown tool: nonexistent" } ∧
    internalErrorCode ≠ methodNotFoundCode ∧
    (handleMCPPost (.ok (toolCallMessage "nonexistent" none (.num 2))) "s1"
        failingEnv readyState).1
      = { status := 200, mcpSessionHeader := none
          body := .rpc (rpcCaught (some (.num 2)) "Unknown tool: nonexistent") } :=
  ⟨rfl, by decide, rfl⟩

/-- C6 (amended): for every tool name outside the static catalog, the
stream dispatcher returns an `McpError` envelope with code
InternalError (-32603) whose message names the unknown tool (the inner
MethodNotFound throw is re-wrapped by the catch clause), and the HTTP
dispatcher returns a 200 response whose JSON-RPC body is the error object
with code -32603 and data naming the unknown tool; neither transport
produces an uncaught fault (both dispatchers are total). -/
theorem c6_unknown_tool_internal_error (env : Env) (st : ServerState)
    (args : Option Json) (fresh : String) (id : Json) (name : String)
    (h1 : name ≠ "test_connection") (h2 : name ≠ "get_campaigns")
    (h3 : name ≠ "get_campaign_metrics") :
    (∃ msg, streamCallTool env st name args
        = .error { code := internalErrorCode, message := msg }) ∧
    handleMCPMessage (toolCallMessage name args id) fresh env st
      = .ok (rpcCaught (some id) ("Unknown tool: " ++ name), st) ∧
    internalErrorCode ≠ methodNotFoundCode := by
  refine ⟨⟨"Error executing " ++ name ++ ": " ++
      McpError.jsMessage { code := methodNotFoundCode
                           message := "Unknown tool: " ++ name }, ?_⟩, ?_, by decide⟩
  · simp [streamCallTool, h1, h2, h3, Thrown.message]
  · simp [handleMCPMessage, handleMCPMessageBody, toolCallMessage, jsGet,
      jsAsString, h1, h2, jsTemplateString]

/-- Closed witness for `c6_unknown_tool_internal_error` at the tool name
"nonexistent". -/
theorem c6_unknown_tool_internal_error_witness :
    (∃ msg, streamCallTool failingEnv readyState "nonexistent" none
        = .error { code := internalErrorCode, message := msg }) ∧
    handleMCPMessage (toolCallMessage "nonexistent" none (.num 2)) "s1"
        failingEnv readyState
      = .ok (rpcCaught (some (.num 2)) "Unknown tool: nonexistent", readyState) ∧
    internalErrorCode ≠ methodNotFoundCode :=
  c6_unknown_tool_internal_error failingEnv readyState none "s1" (.num 2)
    "nonexistent" (by decide) (by decide) (by decide)

/-- C7: when startup initialization fails, `run` logs the failure and
still starts the HTTP server, with `this.customer` left null; every
subsequent first tool call re-attempts initialization exactly once
through its lazy guard, and does so before issuing any query (a failing
re-attempt issues no query; a successful re-attempt lets the query go
out). -/
theorem c7_startup_failure_deferred (env env2 : Env) (e : String)
    (h : env.initTokens = .error e) :
    run env = { state := initialServerState, httpServerStarted := true
                startupFailureLogged := true } ∧
    (testConnection env2 (run env).state).initAttempts = 1 ∧
    (∀ cid, (getCampaigns env2 (run env).state cid).initAttempts = 1) ∧
    (∀ c s d, (getCampaignMetrics env2 (run env).state c s d).initAttempts = 1) ∧
    (∀ e2, env2.initTokens = .error e2 →
      (testConnection env2 (run env).state).queries = [] ∧
      (∀ cid, (getCampaigns env2 (run env).state cid).queries = [])) ∧
    (∀ t2, env2.initTokens = .ok t2 →
      (testConnection env2 (run env).state).queries = [testQuery]) := by
  have hrun : run env = { state := initialServerState, httpServerStarted := true
                          startupFailureLogged := true } := by
    simp [run, initializeGoogleAds, h]
  have hstate : (run env).state = initialServerState := by rw [hrun]
  have hlaz : lazyInit env2 initialServerState = (initializeGoogleAds env2, 1) := by
    simp [lazyInit, initialServerState]
  refine ⟨hrun, ?_, ?_, ?_, ?_, ?_⟩
  · rw [hstate]
    rcases hi : env2.initTokens with e2 | t2
    · simp [testConnection, hlaz, initializeGoogleAds, hi]
    · rcases hq2 : env2.query testQuery with m2 | rows <;>
        simp [testConnection, hlaz, initializeGoogleAds, hi, hq2]
  · intro cid
    rw [hstate]
    rcases hi : env2.initTokens with e2 | t2
    · simp [getCampaigns, hlaz, initializeGoogleAds, hi]
    · simp only [getCampaigns, hlaz, initializeGoogleAds, hi]
      split <;> (try split) <;> rfl
  · intro c s d
    rw [hstate]
    rcases hi : env2.initTokens with e2 | t2
    · simp [getCampaignMetrics, hlaz, initializeGoogleAds, hi]
    · simp only [getCampaignMetrics, hlaz, initializeGoogleAds, hi]
      split <;> (try split) <;> rfl
  · intro e2 hi
    rw [hstate]
    constructor
    · simp [testConnection, hlaz, initializeGoogleAds, hi]
    · intro cid
      simp [getCampaigns, hlaz, initializeGoogleAds, hi]
  · intro t2 hi
    rw [hstate]
    rcases hq2 : env2.query testQuery with m2 | rows <;>
      simp [testConnection, hlaz, initializeGoogleAds, hi, hq2]

/-- Closed witness for `c7_startup_failure_deferred`: startup against an
environment whose token initialization fails, first tool call against
`failingEnv` (whose initialization succeeds). -/
theorem c7_startup_failure_deferred_witness :
    run { initTokens := .error "no tokens", refresh := .error "no refresh"
          query := fun _ => .error "down", now := 0 }
      = { state := initialServerState, httpServerStarted := true
          startupFailureLogged := true } ∧
    (testConnection failingEnv
        (run { initTokens := .error "no tokens", refresh := .error "no refresh"
               query := fun _ => .error "down", now := 0 }).state).initAttempts = 1 ∧
    (testConnection failingEnv
        (run { initTokens := .error "no tokens", refresh := .error "no refresh"
               query := fun _ => .error "down", now := 0 }).state).queries
      = [testQuery] := by
  have h := c7_startup_failure_deferred
    { initTokens := .error "no tokens", refresh := .error "no refresh"
      query := fun _ => .error "down", now := 0 }
    failingEnv "no tokens" rfl
  exact ⟨h.1, h.2.1, h.2.2.2.2.2 sampleTokens rfl⟩

/-- Every non-null parsed body reaches the try/catch dispatcher (only the
null destructuring throws out of `handleMCPMessage`). -/
theorem handleMCPMessage_total (j : Json) (hj : j ≠ .null) (fresh : String)
    (env : Env) (st : ServerState) :
    handleMCPMessage j fresh env st = .ok (handleMCPMessageBody j fresh env st) := by
  cases j
  case null => exact absurd rfl hj
  all_goals rfl

/-- C10 counterexample: the body "null" is syntactically valid JSON, yet
POSTing it yields status 500 — the destructuring of the parsed message
happens before the try block and throws on null, reaching the outer
catch. -/
theorem c10_counterexample :
    (handleMCPPost (.ok Json.null) "s1" failingEnv readyState).1
      = { status := 500, mcpSessionHeader := none
          body := .rpc (http500Body
            "Cannot destructure property method of message as it is null") } :=
  rfl

/-- C10 (amended): for every parsed JSON body other than the literal
null, the POST response status is 200, with handling failures converted
to JSON-RPC error objects carrying code -32603 inside the 200 response
(shown here for an unrecognized method; unknown tools and downstream
failures behave likewise); the 500 path is reached on a parse failure and
also on the valid JSON body null. -/
theorem c10_post_always_200 (fresh : String) (env : Env) (st : ServerState) :
    (∀ j, j ≠ Json.null → (handleMCPPost (.ok j) fresh env st).1.status = 200) ∧
    (∀ m, (handleMCPPost (.error m) fresh env st).1
      = { status := 500, mcpSessionHeader := none, body := .rpc (http500Body m) }) ∧
    (handleMCPPost (.ok .null) fresh env st).1.status = 500 ∧
    (∀ j, j ≠ Json.null →
      jsAsString (jsGet j "method") ≠ some "initialize" →
      jsAsString (jsGet j "method") ≠ some "tools/list" →
      jsAsString (jsGet j "method") ≠ some "tools/call" →
      (handleMCPPost (.ok j) fresh env st).1
        = { status := 200, mcpSessionHeader := none
            body := .rpc (rpcCaught (jsGet j "id")
              ("Unknown method: " ++ jsTemplateString (jsGet j "method"))) }) := by
  refine ⟨?_, fun m => rfl, rfl, ?_⟩
  · intro j hj
    simp only [handleMCPPost, handleMCPMessage_total j hj]
    split <;> rfl
  · intro j hj h1 h2 h3
    simp [handleMCPPost, handleMCPMessage_total j hj, handleMCPMessageBody,
      h1, h2, h3, rpcCaught, jsTruthyStr]

/-- Closed witness for `c10_post_always_200`: a `tools/list` body gets
200; an unparseable body gets the 500 error body; the unknown method
"bogus/method" gets a -32603 error object inside a 200 response. -/
theorem c10_post_always_200_witness :
    (handleMCPPost (.ok (toolsListMessage (.num 3))) "s1" failingEnv readyState).1.status
      = 200 ∧
    (handleMCPPost (.error "Unexpected end of JSON input") "s1" failingEnv readyState).1
      = { status := 500, mcpSessionHeader := none
          body := .rpc (http500Body "Unexpected end of JSON input") } ∧
    (handleMCPPost (.ok (.obj [("method", .str "bogus/method")])) "s1"
        failingEnv readyState).1
      = { status := 200, mcpSessionHeader := none
          body := .rpc (rpcCaught none "Unknown method: bogus/method") } := by
  have h := c10_post_always_200 "s1" failingEnv readyState
  refine ⟨h.1 _ (fun hF => Json.noConfusion hF), h.2.1 _, ?_⟩
  have h4 := h.2.2.2 (.obj [("method", .str "bogus/method")])
    (fun hF => Json.noConfusion hF) (by decide) (by decide) (by decide)
  exact h4

end GoogleAdsMcp
